import Mathlib

/-
Verification development for the `use-local-storage-state` repository: a
shallow embedding of the storage layer and hook-level state transitions of the
library's implementations, together with theorems about its specified
behavior.  The repository bundles several revisions of the library; each
definition below names the file and line range it embeds.
-/

namespace ULSS

/-- Values of the JSON-serializable application domain apart from `undefined`:
`jNull` is JS `null`.  Composite values (arrays, objects) are omitted — the
serialization format is an external collaborator (spec section 1) and the
library treats values opaquely, so the scalar domain exercises every code
path. -/
inductive JVal where
  | jNull : JVal
  | jBool : Bool → JVal
  | jNum : Int → JVal
  | jStr : String → JVal
deriving DecidableEq

/-- Application values: `none` is JS `undefined`, `some JVal.jNull` is JS
`null`. -/
abbrev AppVal := Option JVal

/-- The JS nullish test: `x ?? y` short-circuits exactly when `x` is neither
`undefined` nor `null`. -/
def isNullish : AppVal → Bool
  | none => true
  | some .jNull => true
  | some _ => false

/-- Raw strings held by the durable store, classified by how `JSON.parse` and
the code's string comparisons treat them: `undef` is the literal string
"undefined" (what `localStorage.setItem(k, JSON.stringify(undefined))`
stores, since `JSON.stringify(undefined)` is the value `undefined` and
`setItem` coerces it to a string); `json v` is the canonical
`JSON.stringify` image of the defined value `v` (so `json JVal.jNull` is the
string "null"); `corrupt s` stands for any other string, which `JSON.parse`
rejects. -/
inductive Raw where
  | undef : Raw
  | json : JVal → Raw
  | corrupt : String → Raw
deriving DecidableEq

/-- The raw string that `localStorage.setItem(key, JSON.stringify(value))`
stores for an application value. -/
def stringifyRaw : AppVal → Raw
  | none => .undef
  | some v => .json v

/-- The external `JSON.parse` on a raw string: succeeds exactly on
`Raw.json v`; the string "undefined" is not valid JSON and `corrupt` strings
are invalid by construction. -/
def jsonParse : Raw → Except Unit JVal
  | .json v => .ok v
  | _ => .error ()

/-- The `parseJSON` wrapper of `src/index.ts` lines 7-13 (textually identical
in `src/unnamed/part_017` lines 7-13 and in the private helper of
`src/src/storage.ts` lines 106-114):
`value === 'undefined' ? undefined : JSON.parse(value ?? '')`.  The argument
has JS type `string | null`; for a `null` argument `JSON.parse('')` throws. -/
def parseJSONIndex : Option Raw → Except Unit AppVal
  | some .undef => .ok none
  | some r => (jsonParse r).map some
  | none => .error ()

/-- Result domain of the `parseJSON` of `src/src/storage/parseJson.ts`: the
`nullValue` sentinel (imported from the `./nullValue` module: a unique object
distinct from every parsed value), JS `undefined`, JS `null`, or a parsed
value. -/
inductive ItemVal where
  | sentinel : ItemVal
  | undef : ItemVal
  | nullv : ItemVal
  | val : JVal → ItemVal
deriving DecidableEq

/-- The `parseJSON` of `src/src/storage/parseJson.ts` lines 7-15 (textually
identical inside `src/src/storage/localStorageJson.ts`):
`value === 'undefined' ? undefined : value === 'null' ? nullValue :
value === null ? null : JSON.parse(value)`. -/
def parseJSONNullV : Option Raw → Except Unit ItemVal
  | some .undef => .ok .undef
  | some (.json .jNull) => .ok .sentinel
  | none => .ok .nullv
  | some (.json v) => .ok (.val v)
  | some (.corrupt _) => .error ()

/-- Association-list lookup, modelling `Map.get` and record indexing. -/
def alookup {α : Type} : List (String × α) → String → Option α
  | [], _ => none
  | (k', v) :: rest, k => if k = k' then some v else alookup rest k

/-- Remove every binding of a key, modelling `Map.delete` and `removeItem`. -/
def aerase {α : Type} : List (String × α) → String → List (String × α)
  | [], _ => []
  | (k', v) :: rest, k => if k = k' then aerase rest k else (k', v) :: aerase rest k

/-- Overwrite the binding of a key, modelling `Map.set` and `setItem`. -/
def aset {α : Type} (l : List (String × α)) (k : String) (v : α) : List (String × α) :=
  (k, v) :: aerase l k

@[simp] theorem alookup_aset_self {α : Type} (l : List (String × α)) (k : String) (v : α) :
    alookup (aset l k v) k = some v := by
  simp [aset, alookup]

@[simp] theorem alookup_aerase_self {α : Type} (l : List (String × α)) (k : String) :
    alookup (aerase l k) k = none := by
  induction l with
  | nil => rfl
  | cons p rest ih =>
    obtain ⟨k', v⟩ := p
    by_cases h : k = k'
    · subst h
      simp [aerase, ih]
    · simp [aerase, alookup, h, ih]

/-- Failure modes of the browser `localStorage`, following the header comment
of the `storage` module (`src/index.ts` lines 15-23): `ok` — every call
succeeds; `quotaFull` — writes throw (maximum quota exceeded, or Mobile
Safari in private mode) while reads and removals succeed; `noAccess` — every
access to the `localStorage` object throws ("SecurityError: The operation is
insecure", Safari with cookies disabled). -/
inductive StorageMode where
  | ok
  | quotaFull
  | noAccess
deriving DecidableEq

/-- The browser durable store: its raw-string entries and its failure mode. -/
structure LocalStorage where
  items : List (String × Raw)
  mode : StorageMode
deriving DecidableEq

/-- The external `localStorage.getItem(key)` (returns `string | null`),
throwing when the store object itself is inaccessible. -/
def LocalStorage.getItem (ls : LocalStorage) (k : String) : Except Unit (Option Raw) :=
  match ls.mode with
  | .noAccess => .error ()
  | _ => .ok (alookup ls.items k)

/-- The external `localStorage.setItem(key, raw)`: throws unless the store is
fully working. -/
def LocalStorage.setItem (ls : LocalStorage) (k : String) (r : Raw) :
    Except Unit LocalStorage :=
  match ls.mode with
  | .ok => .ok { ls with items := aset ls.items k r }
  | _ => .error ()

/-- The external `localStorage.removeItem(key)`: throws only when the store
object is inaccessible. -/
def LocalStorage.removeItem (ls : LocalStorage) (k : String) :
    Except Unit LocalStorage :=
  match ls.mode with
  | .noAccess => .error ()
  | _ => .ok { ls with items := aerase ls.items k }

@[simp] theorem except_bind_ok {ε α β : Type} (a : α) (f : α → Except ε β) :
    (Except.ok a : Except ε α) >>= f = f a := rfl

@[simp] theorem except_bind_error {ε α β : Type} (e : ε) (f : α → Except ε β) :
    (Except.error e : Except ε α) >>= f = Except.error e := rfl

@[simp] theorem parseJSONIndex_stringify (v : AppVal) :
    parseJSONIndex (some (stringifyRaw v)) = .ok v := by
  cases v with
  | none => rfl
  | some w => rfl

/-- State of the `storage` module of `src/index.ts` lines 24-52 (textually
identical in `src/unnamed/part_017` lines 24-52): the browser store plus the
process-wide in-memory fallback record `data: Record<string, unknown>`. -/
structure Env1 where
  ls : LocalStorage
  data : List (String × AppVal)
deriving DecidableEq

/-- JS record read `data[key]`: an absent key reads as `undefined`, which is
also what the code assigns to clear an entry. -/
def recRead (l : List (String × AppVal)) (k : String) : AppVal :=
  (alookup l k).getD none

/-- `storage.get` of `src/index.ts` lines 26-32:
`try { return data[key] ?? parseJSON(localStorage.getItem(key)) } catch { return defaultValue }`.
The nullish-coalescing operator falls through to the durable read exactly when
`data[key]` is `undefined` or `null`. -/
def storage1Get (k : String) (defaultValue : AppVal) (e : Env1) : AppVal :=
  if isNullish (recRead e.data k) then
    match e.ls.getItem k with
    | .error _ => defaultValue
    | .ok raw =>
      match parseJSONIndex raw with
      | .ok v => v
      | .error _ => defaultValue
  else recRead e.data k

/-- `storage.set` of `src/index.ts` lines 33-44: try the durable write; on
success clear the fallback entry (`data[key] = undefined`) and return `true`;
on failure store the value in the fallback and return `false`. -/
def storage1Set (k : String) (v : AppVal) (e : Env1) : Bool × Env1 :=
  match e.ls.setItem k (stringifyRaw v) with
  | .ok ls' => (true, ⟨ls', aset e.data k none⟩)
  | .error _ => (false, ⟨e.ls, aset e.data k v⟩)

/-- `storage.remove` of `src/index.ts` lines 45-51: clear the fallback entry,
then try the durable removal, swallowing a throw. -/
def storage1Remove (k : String) (e : Env1) : Env1 :=
  match e.ls.removeItem k with
  | .ok ls' => ⟨ls', aset e.data k none⟩
  | .error _ => ⟨e.ls, aset e.data k none⟩

/-- The value a freshly mounted `useLocalStorageState` instance of
`src/index.ts` observes: the initial state's `value` field at lines 78-83 is
`storage.get(key, defaultValue)` (the `isCallable` unwrap of a lazy default is
the identity on plain values). -/
def freshHookValue1 (k : String) (defaultValue : AppVal) (e : Env1) : AppVal :=
  storage1Get k defaultValue e

/-- Per-instance React state of `useLocalStorageState` in `src/index.ts`:
the observed value and the `isPersistent` flag. -/
structure HookState1 where
  value : AppVal
  isPersistent : Bool
deriving DecidableEq

/-- The initial `isPersistent` probe of `src/index.ts` lines 84-100: on the
client it writes a dummy entry (`setItem` stores the plain, non-JSON string
"dummy") and removes it again, returning `false` when that throws. -/
def initialIsPersistent1 (e : Env1) : Bool :=
  match e.ls.setItem "--use-local-storage-state--" (.corrupt "dummy") with
  | .ok ls' =>
    match ls'.removeItem "--use-local-storage-state--" with
    | .ok _ => true
    | .error _ => false
  | .error _ => false

/-- A cross-context `StorageEvent` as consumed by the library: whether
`event.storageArea === localStorage`, the changed key, and the new raw string
(`none` when the entry was removed in the other context). -/
structure StorageEvt where
  sameArea : Bool
  key : String
  newValue : Option Raw
deriving DecidableEq

/-- The `onStorage` listener of `src/index.ts` lines 152-165: on an event
whose storage area is `localStorage` and whose key matches, replace the hook
state with `isPersistent: true` and
`value: e.newValue === null ? defaultValue : parseJSON(e.newValue)`; the
`parseJSON` call is not wrapped in a `try`, so a corrupt payload throws. -/
def onStorageIndex (hookKey : String) (defaultValue : AppVal) (st : HookState1)
    (e : StorageEvt) : Except Unit HookState1 :=
  if e.sameArea = true ∧ e.key = hookKey then
    match e.newValue with
    | none => .ok ⟨defaultValue, true⟩
    | some r => (parseJSONIndex (some r)).map (fun v => ⟨v, true⟩)
  else .ok st

/-- How a hook instance is created: directly via `useLocalStorageState()`, or
through the `createLocalStorageStateHook()` factory, whose wrapper effect
(`src/index.ts` lines 205-207) deletes the key from `initializedStorageKeys`
right after the inner hook's duplicate-detection effect added it. -/
inductive MountKind where
  | plain
  | factory
deriving DecidableEq

/-- The duplicate-key error message thrown at `src/index.ts` lines 136-141. -/
def duplicateKeyMessage : String :=
  "Multiple instances of useLocalStorageState() has been initialized with the same key. Use createLocalStorageStateHook() instead. Example implementation: https://github.com/astoilkov/use-local-storage-state#create-local-storage-state-hook-example"

/-- Mounting one hook instance: the duplicate-detection effect of
`src/index.ts` lines 134-147 throws if the key is already tracked and
otherwise adds it to the tracked set; for a factory-made instance the wrapper
effect (lines 205-207, registered after the inner hook's effects) then deletes
the key again. -/
def mountStep (keys : List String) (k : String) (kind : MountKind) :
    Except String (List String) :=
  if k ∈ keys then .error duplicateKeyMessage
  else
    match kind with
    | .plain => .ok (k :: keys)
    | .factory => .ok ((k :: keys).erase k)

/-- Mount a sequence of hook instances in order, threading the tracked-key
set of `initializedStorageKeys`. -/
def mountSeq (ms : List (String × MountKind)) (keys : List String) :
    Except String (List String) :=
  match ms with
  | [] => .ok keys
  | (k, kind) :: rest => do
    let keys' ← mountStep keys k kind
    mountSeq rest keys'

/-- State of the `Storage` class of `src/unnamed/part_016` lines 50-78:
`Storage.data` is a process-wide `Map` that holds exactly the values whose
durable write failed. -/
structure Env2 where
  ls : LocalStorage
  data : List (String × AppVal)
deriving DecidableEq

/-- `Storage.get` of `src/unnamed/part_016` lines 56-64, instantiated at the
default JSON serializer:
`Storage.data.has(key) ? Storage.data.get(key) : parseJSON(localStorage.getItem(key), parse)`,
the whole body inside `try`, returning `defaultValue` on a throw. -/
def storage2Get (k : String) (defaultValue : AppVal) (e : Env2) : AppVal :=
  match alookup e.data k with
  | some v => v
  | none =>
    match e.ls.getItem k with
    | .error _ => defaultValue
    | .ok raw =>
      match parseJSONIndex raw with
      | .ok v => v
      | .error _ => defaultValue

/-- `Storage.set` of `src/unnamed/part_016` lines 65-73: on a successful
durable write delete the fallback entry; on a throw store the value in the
fallback map. -/
def storage2Set (k : String) (v : AppVal) (e : Env2) : Env2 :=
  match e.ls.setItem k (stringifyRaw v) with
  | .ok ls' => ⟨ls', aerase e.data k⟩
  | .error _ => ⟨e.ls, aset e.data k v⟩

/-- `JSON.stringify(value)` as a JS value, before any `setItem` coercion: the
JS value `undefined` (modelled `none`) when the input is `undefined`,
otherwise the canonical JSON string.  `storage.set` of `src/src/storage.ts`
line 60 binds this value and caches it as the entry's `stringValue`. -/
def jsonStringify : AppVal → Option Raw
  | none => none
  | some v => some (.json v)

/-- One entry of the `data` cache of `src/src/storage.ts` lines 13-20.  The
`stringValue` slot holds what the program stored there at runtime: a string,
or — despite the declared TS type `string | null` — the JS value `undefined`
(modelled `none`), which `set` caches when `JSON.stringify(value)` is
`undefined`; a JS `null` never reaches the slot, because `get` caches only a
raw string whose parse succeeded and `parseJSON(null)` throws. -/
structure CacheEntry where
  persistent : Bool
  parsedValue : AppVal
  stringValue : Option Raw
deriving DecidableEq

/-- The strict comparison `item.stringValue !== stringValue` of
`src/src/storage.ts` line 41, negated: the left side is the cached slot (a
string, or the JS value `undefined` as `none`), the right side is the fresh
`localStorage.getItem` result (a string, or JS `null` as `none`).  Strict
equality holds exactly between equal strings; `undefined === null` and
`undefined === "..."` are false. -/
def cachedEq : Option Raw → Option Raw → Bool
  | some r, some r' => decide (r = r')
  | _, _ => false

/-- State of the `storage` module of `src/src/storage.ts`. -/
structure Env3 where
  ls : LocalStorage
  data : List (String × CacheEntry)
deriving DecidableEq

/-- `storage.get` of `src/src/storage.ts` lines 22-57.  The third result
component records whether the `parseJSON` branch (lines 42-53) ran.  The two
bare `localStorage.getItem` calls (inside the condition on line 32, reached
only when the entry is uncached and a default is supplied thanks to `&&`
short-circuiting, and unconditionally on line 39) sit outside every `try`, so
the whole call throws when the store object is inaccessible; the narrow `try`
blocks around `setItem` (lines 34-36) and around the reparse (lines 42-53)
are the inner matches. -/
def storage3Get (k : String) (defaultValue : AppVal) (e : Env3) :
    Except Unit (AppVal × Env3 × Bool) := do
  let item := alookup e.data k
  let e1 ←
    match item, defaultValue with
    | none, some w => do
      let raw ← e.ls.getItem k
      if raw = none then
        match e.ls.setItem k (.json w) with
        | .ok ls' => pure (⟨ls', e.data⟩ : Env3)
        | .error _ => pure e
      else
        pure e
    | _, _ => pure e
  let stringValue ← e1.ls.getItem k
  match item with
  | some it =>
    if cachedEq it.stringValue stringValue then
      pure (it.parsedValue, e1, false)
    else
      match parseJSONIndex stringValue with
      | .ok v => pure (v, ⟨e1.ls, aset e1.data k ⟨true, v, stringValue⟩⟩, true)
      | .error _ => pure (defaultValue, ⟨e1.ls, aerase e1.data k⟩, true)
  | none =>
    match parseJSONIndex stringValue with
    | .ok v => pure (v, ⟨e1.ls, aset e1.data k ⟨true, v, stringValue⟩⟩, true)
    | .error _ => pure (defaultValue, ⟨e1.ls, aerase e1.data k⟩, true)

/-- `storage.set` of `src/src/storage.ts` lines 59-78: bind
`stringValue = JSON.stringify(value)` (line 60), pass it to
`localStorage.setItem` — which coerces a JS `undefined` to the string
"undefined", i.e. `stringifyRaw v` — and cache the passed value together
with the un-coerced `stringValue`, marking the entry persistent exactly when
the durable write succeeded.  (`triggerChange`, the subscriber fan-out, has
no effect on the modelled state.) -/
def storage3Set (k : String) (v : AppVal) (e : Env3) : Env3 :=
  match e.ls.setItem k (stringifyRaw v) with
  | .ok ls' => ⟨ls', aset e.data k ⟨true, v, jsonStringify v⟩⟩
  | .error _ => ⟨e.ls, aset e.data k ⟨false, v, jsonStringify v⟩⟩

/-- `storage.remove` of `src/src/storage.ts` lines 80-85: delete the cache
entry, then call `localStorage.removeItem` with no `try` around it. -/
def storage3Remove (k : String) (e : Env3) : Except Unit Env3 :=
  (LocalStorage.removeItem e.ls k).map (fun ls' => (⟨ls', aerase e.data k⟩ : Env3))

/-- `localStorageJson.getItem` of `src/src/storage/localStorageJson.ts`:
`parseJSON(localStorage.getItem(key))`; throws when the store object is
inaccessible or the raw string is not valid JSON. -/
def localStorageJsonGetItem (k : String) (ls : LocalStorage) : Except Unit ItemVal := do
  let raw ← ls.getItem k
  parseJSONNullV raw

/-- `localStorageJson.setItem` of `src/src/storage/localStorageJson.ts`:
`localStorage.setItem(key, JSON.stringify(value))`. -/
def localStorageJsonSetItem (k : String) (v : AppVal) (ls : LocalStorage) :
    Except Unit LocalStorage :=
  ls.setItem k (stringifyRaw v)

/-- `localStorageJson.removeItem` of `src/src/storage/localStorageJson.ts`. -/
def localStorageJsonRemoveItem (k : String) (ls : LocalStorage) :
    Except Unit LocalStorage :=
  ls.removeItem k

/-- `getStorageValue` of `src/src/useLocalStorageState.ts` lines 76-84, with
the default `localStorageJson` storage: map the `nullValue` sentinel back to
JS `null`, map JS `null` (an absent entry) to the initial default value,
return any other value as is; on a throw return the initial default. -/
def getStorageValue (k : String) (initialDefaultValue : AppVal) (ls : LocalStorage) :
    AppVal :=
  match localStorageJsonGetItem k ls with
  | .error _ => initialDefaultValue
  | .ok .sentinel => some .jNull
  | .ok .nullv => initialDefaultValue
  | .ok .undef => none
  | .ok (.val v) => some v

/-- The default-persistence step run in every render body of
`useClientLocalStorageState` (`src/src/useLocalStorageState.ts` lines
172-176):
`try { if (initialDefaultValue !== undefined && storage.getItem(key) === null) { storage.setItem(key, initialDefaultValue) } } catch {}`.
Only an absent entry satisfies `storage.getItem(key) === null` — the
`nullValue` sentinel returned for a stored "null" is a distinct object. -/
def persistDefault (k : String) (initialDefaultValue : AppVal) (ls : LocalStorage) :
    LocalStorage :=
  match initialDefaultValue with
  | none => ls
  | some w =>
    match localStorageJsonGetItem k ls with
    | .ok .nullv =>
      match localStorageJsonSetItem k (some w) ls with
      | .ok ls' => ls'
      | .error _ => ls
    | _ => ls

/-- `removeItem` of `src/src/useLocalStorageState.ts` lines 183-189:
`storage.removeItem(key)` (no `try` around it), after which the instance's
observed value becomes the initial default.  Returns the new store and the
new observed value. -/
def removeItemHook (k : String) (initialDefaultValue : AppVal) (ls : LocalStorage) :
    Except Unit (LocalStorage × AppVal) :=
  (localStorageJsonRemoveItem k ls).map (fun ls' => (ls', initialDefaultValue))

/-- The `onStorage` listener of `src/src/useLocalStorageState.ts` lines
153-158: on an event whose storage area is `localStorage` and whose key is the
hook's key, re-read the store (`store.value = getStorageValue()`); otherwise
the observed value is untouched. -/
def onStorageClient (hookKey : String) (initialDefaultValue : AppVal)
    (ls : LocalStorage) (oldValue : AppVal) (e : StorageEvt) : AppVal :=
  if e.sameArea = true ∧ e.key = hookKey then getStorageValue hookKey initialDefaultValue ls
  else oldValue

/-- Modelled from the spec: the state of the `./storage` module imported by
`src/unnamed/part_014`, which is not part of the snapshot (only its callers
are).  Spec section 4.2 describes it: a single process-wide mapping from key
to value "populated only when the durable store is unavailable for that
key". -/
structure EnvF where
  ls : LocalStorage
  data : List (String × AppVal)
deriving DecidableEq

/-- Modelled from the spec: `storage.set` as called by `src/unnamed/part_014`
(spec section 4.2): attempt the durable write; on success delete the
in-memory entry for the key, on failure store the value in the in-memory
map. -/
def storageFSet (k : String) (v : AppVal) (e : EnvF) : EnvF :=
  match e.ls.setItem k (stringifyRaw v) with
  | .ok ls' => ⟨ls', aerase e.data k⟩
  | .error _ => ⟨e.ls, aset e.data k v⟩

/-- `storage.data.has(key)` — membership of the key in the in-memory fallback
map, as read by `src/unnamed/part_014` lines 143, 154 and 165. -/
def storageFHas (k : String) (e : EnvF) : Bool :=
  (alookup e.data k).isSome

/-- The `isPersistent` field computed on every render at
`src/unnamed/part_014` line 165:
`isPersistent: isPossiblyHydrating || !storage.data.has(key)`. -/
def isPersistent14 (isPossiblyHydrating : Bool) (k : String) (e : EnvF) : Bool :=
  isPossiblyHydrating || !(storageFHas k e)

/-- The default-persistence step of `src/unnamed/part_014` lines 152-158, run
in every render body:
`if (defaultValue !== undefined && !storage.data.has(key) && localStorage.getItem(key) === null) { storage.set(key, defaultValue) }`
— with no `try` around the bare `localStorage.getItem`. -/
def persistDefault14 (k : String) (defaultValue : AppVal) (e : EnvF) :
    Except Unit EnvF :=
  match defaultValue with
  | none => pure e
  | some w =>
    if storageFHas k e then pure e
    else do
      let raw ← e.ls.getItem k
      if raw = none then pure (storageFSet k (some w) e)
      else pure e

/-- C1 (counterexample): the round trip fails as stated.  With the
record-based fallback of `src/index.ts` (and `src/unnamed/part_017`), when
every durable write fails (`quotaFull`), `setValue(null)` stores `null` in
the fallback record, but the read path `data[key] ?? parseJSON(...)` skips a
nullish fallback entry, so a fresh hook instance observes the default
(`undefined` here) instead of the written `null`. -/
theorem c1RoundTripCounterexample :
    freshHookValue1 "k" none
      (storage1Set "k" (some .jNull) ⟨⟨[], .quotaFull⟩, []⟩).2 = none ∧
    recRead (storage1Set "k" (some .jNull) ⟨⟨[], .quotaFull⟩, []⟩).2.data "k"
      = some .jNull ∧
    (none : AppVal) ≠ some .jNull := by
  refine ⟨by decide, by decide, by decide⟩

/-- C1 (amended): `setValue(v)` followed by a fresh read with the same key
returns `v` (i) on the `src/index.ts` storage whenever the durable store is
working, for every `v` including `null` and `undefined`, and (ii) on that
storage whenever `v` is not nullish, even when every durable write fails (the
value is then served from the in-memory fallback record); nullish values are
not served from the record-based fallback because `??` skips them.  (iii) The
`Map`-based `Storage` class of `src/unnamed/part_016` restores the round trip
for every `v` in every store mode. -/
theorem c1RoundTripAmended (k : String) (v d : AppVal) (e1 : Env1) (e2 : Env2) :
    (e1.ls.mode = .ok → freshHookValue1 k d (storage1Set k v e1).2 = v) ∧
    (isNullish v = false → freshHookValue1 k d (storage1Set k v e1).2 = v) ∧
    storage2Get k d (storage2Set k v e2) = v := by
  obtain ⟨⟨items1, mode1⟩, data1⟩ := e1
  obtain ⟨⟨items2, mode2⟩, data2⟩ := e2
  refine ⟨?_, ?_, ?_⟩
  · intro h
    simp only at h
    subst h
    simp [freshHookValue1, storage1Get, storage1Set, LocalStorage.setItem,
      LocalStorage.getItem, recRead, isNullish]
  · intro hv
    cases mode1 with
    | ok =>
      simp [freshHookValue1, storage1Get, storage1Set, LocalStorage.setItem,
        LocalStorage.getItem, recRead, isNullish]
    | quotaFull =>
      simp [freshHookValue1, storage1Get, storage1Set, LocalStorage.setItem,
        LocalStorage.getItem, recRead, hv]
    | noAccess =>
      simp [freshHookValue1, storage1Get, storage1Set, LocalStorage.setItem,
        LocalStorage.getItem, recRead, hv]
  · cases mode2 with
    | ok =>
      simp [storage2Get, storage2Set, LocalStorage.setItem, LocalStorage.getItem]
    | quotaFull =>
      simp [storage2Get, storage2Set, LocalStorage.setItem, LocalStorage.getItem]
    | noAccess =>
      simp [storage2Get, storage2Set, LocalStorage.setItem, LocalStorage.getItem]

/-- C1 (witness): the amended round trip evaluated at concrete inputs — a
working store serving `"x"`, a quota-full store serving `"x"` from the
fallback record, and the part_016 `Storage` class serving `null` from its
fallback map under a quota-full store. -/
theorem c1RoundTripWitness :
    freshHookValue1 "todos" none
      (storage1Set "todos" (some (.jStr "x")) ⟨⟨[], .ok⟩, []⟩).2 = some (.jStr "x") ∧
    freshHookValue1 "todos" none
      (storage1Set "todos" (some (.jStr "x")) ⟨⟨[], .quotaFull⟩, []⟩).2 = some (.jStr "x") ∧
    storage2Get "todos" none
      (storage2Set "todos" (some .jNull) ⟨⟨[], .quotaFull⟩, []⟩) = some .jNull := by
  refine ⟨(c1RoundTripAmended "todos" (some (.jStr "x")) none ⟨⟨[], .ok⟩, []⟩
      ⟨⟨[], .ok⟩, []⟩).1 rfl,
    (c1RoundTripAmended "todos" (some (.jStr "x")) none ⟨⟨[], .quotaFull⟩, []⟩
      ⟨⟨[], .ok⟩, []⟩).2.1 rfl,
    (c1RoundTripAmended "todos" (some .jNull) none ⟨⟨[], .ok⟩, []⟩
      ⟨⟨[], .quotaFull⟩, []⟩).2.2⟩

/-- C2 (counterexample): the biconditional fails on `src/index.ts`.  After a
write that fell back to memory (`quotaFull`), the fallback record holds an
entry for the key, yet a matching cross-context storage event rewrites the
instance state with `isPersistent: true` without touching the fallback — so
the flag is `true` while the fallback map holds an entry, and it is a stored
per-instance flag, not recomputed from fallback membership. -/
theorem c2IsPersistentCounterexample :
    (storage1Set "k" (some (.jStr "x")) ⟨⟨[], .quotaFull⟩, []⟩).1 = false ∧
    recRead (storage1Set "k" (some (.jStr "x")) ⟨⟨[], .quotaFull⟩, []⟩).2.data "k"
      = some (.jStr "x") ∧
    onStorageIndex "k" none ⟨some (.jStr "x"), false⟩
      ⟨true, "k", some (.json (.jStr "y"))⟩ = .ok ⟨some (.jStr "y"), true⟩ ∧
    ¬(((⟨some (.jStr "y"), true⟩ : HookState1).isPersistent = false) ↔
      recRead (storage1Set "k" (some (.jStr "x")) ⟨⟨[], .quotaFull⟩, []⟩).2.data "k"
        ≠ none) := by
  refine ⟨by decide, by decide, rfl, by decide⟩

/-- C2 (amended): in the `src/unnamed/part_014` variant, at every
non-hydrating render `isPersistent` is recomputed as the negation of
fallback-map membership — a failed write makes it `false` with the entry
present, and a later successful write for the same key deletes the entry and
flips it back to `true` (non-sticky).  In the `src/index.ts` variant the flag
is instead per-instance state: the setter stores the durable write's success,
and a matching cross-context event resets it to `true` regardless of fallback
membership (the counterexample). -/
theorem c2IsPersistentAmended (k : String) (v w : AppVal) (e : EnvF) (e1 : Env1) :
    (isPersistent14 false k e = !(alookup e.data k).isSome) ∧
    (e.ls.mode = .quotaFull →
      isPersistent14 false k (storageFSet k v e) = false ∧
      storageFHas k (storageFSet k v e) = true ∧
      isPersistent14 false k
        (storageFSet k w
          ⟨⟨(storageFSet k v e).ls.items, .ok⟩, (storageFSet k v e).data⟩) = true) ∧
    ((storage1Set k v e1).1 = true ↔ e1.ls.mode = .ok) := by
  obtain ⟨⟨items, mode⟩, data⟩ := e
  obtain ⟨⟨items1, mode1⟩, data1⟩ := e1
  refine ⟨rfl, ?_, ?_⟩
  · intro h
    simp only at h
    subst h
    refine ⟨?_, ?_, ?_⟩
    · simp [isPersistent14, storageFHas, storageFSet, LocalStorage.setItem]
    · simp [storageFHas, storageFSet, LocalStorage.setItem]
    · simp [isPersistent14, storageFHas, storageFSet, LocalStorage.setItem]
  · cases mode1 with
    | ok => simp [storage1Set, LocalStorage.setItem]
    | quotaFull => simp [storage1Set, LocalStorage.setItem]
    | noAccess => simp [storage1Set, LocalStorage.setItem]

/-- C2 (witness): the amended statement evaluated at a quota-full store —
`isPersistent` is `false` right after the failed write, with the key in the
fallback map, and `true` again after a successful rewrite. -/
theorem c2IsPersistentWitness :
    isPersistent14 false "k"
      (storageFSet "k" (some (.jNum 1)) ⟨⟨[], .quotaFull⟩, []⟩) = false ∧
    storageFHas "k" (storageFSet "k" (some (.jNum 1)) ⟨⟨[], .quotaFull⟩, []⟩) = true ∧
    isPersistent14 false "k"
      (storageFSet "k" (some (.jNum 2))
        ⟨⟨(storageFSet "k" (some (.jNum 1)) ⟨⟨[], .quotaFull⟩, []⟩).ls.items, .ok⟩,
          (storageFSet "k" (some (.jNum 1)) ⟨⟨[], .quotaFull⟩, []⟩).data⟩) = true := by
  exact (c2IsPersistentAmended "k" (some (.jNum 1)) (some (.jNum 2))
    ⟨⟨[], .quotaFull⟩, []⟩ ⟨⟨[], .ok⟩, []⟩).2.1 rfl

/-- C3: with a working durable store that has no entry for the key and a
supplied default, the per-render default-persistence step of
`src/src/useLocalStorageState.ts` writes the serialized default on the first
render that observes the missing entry, and any number of further renders
leaves the store unchanged (the write happens exactly once); with no default
supplied the step never changes the store.  The guarded step of
`src/unnamed/part_014` behaves the same way. -/
theorem c3DefaultWrittenOnce (k : String) (w : JVal) (ls : LocalStorage)
    (hok : ls.mode = .ok) (habsent : alookup ls.items k = none) :
    (persistDefault k (some w) ls = ⟨aset ls.items k (.json w), .ok⟩) ∧
    (∀ n : Nat,
      (persistDefault k (some w))^[n] (persistDefault k (some w) ls)
        = persistDefault k (some w) ls) ∧
    (∀ ls2 : LocalStorage, persistDefault k none ls2 = ls2) ∧
    (∀ e : EnvF, e.ls.mode = .ok → alookup e.ls.items k = none →
      storageFHas k e = false →
      persistDefault14 k (some w) e
          = .ok ⟨⟨aset e.ls.items k (.json w), .ok⟩, aerase e.data k⟩ ∧
      persistDefault14 k (some w)
          ⟨⟨aset e.ls.items k (.json w), .ok⟩, aerase e.data k⟩
        = .ok ⟨⟨aset e.ls.items k (.json w), .ok⟩, aerase e.data k⟩) ∧
    (∀ e : EnvF, persistDefault14 k none e = .ok e) := by
  obtain ⟨items, mode⟩ := ls
  simp only at hok habsent
  subst hok
  have hfirst : persistDefault k (some w) ⟨items, .ok⟩
      = ⟨aset items k (.json w), .ok⟩ := by
    simp [persistDefault, localStorageJsonGetItem, localStorageJsonSetItem,
      LocalStorage.getItem, LocalStorage.setItem, habsent, parseJSONNullV,
      stringifyRaw]
  have hfix : persistDefault k (some w) ⟨aset items k (.json w), .ok⟩
      = ⟨aset items k (.json w), .ok⟩ := by
    cases w <;>
      simp [persistDefault, localStorageJsonGetItem, LocalStorage.getItem,
        parseJSONNullV]
  refine ⟨hfirst, ?_, ?_, ?_, ?_⟩
  · intro n
    rw [hfirst]
    exact Function.iterate_fixed hfix n
  · intro ls2
    simp [persistDefault]
  · rintro ⟨⟨itemsF, modeF⟩, dataF⟩ hmode habsF hhasF
    simp only at hmode habsF
    subst hmode
    simp only [storageFHas] at hhasF
    constructor
    · simp [persistDefault14, hhasF, storageFSet, storageFHas, LocalStorage.getItem,
        LocalStorage.setItem, habsF, stringifyRaw, pure, Except.pure]
    · simp [persistDefault14, storageFHas, LocalStorage.getItem, pure, Except.pure]
  · intro e
    simp [persistDefault14, pure, Except.pure]

/-- C3 (witness): on an empty working store, the step writes the default
`"a"` once and a second application changes nothing; with no default the
store is untouched. -/
theorem c3DefaultWrittenOnceWitness :
    persistDefault "todos" (some (.jStr "a")) ⟨[], .ok⟩
      = ⟨aset [] "todos" (.json (.jStr "a")), .ok⟩ ∧
    (persistDefault "todos" (some (.jStr "a")))^[3]
        (persistDefault "todos" (some (.jStr "a")) ⟨[], .ok⟩)
      = persistDefault "todos" (some (.jStr "a")) ⟨[], .ok⟩ ∧
    persistDefault "todos" none ⟨[], .ok⟩ = ⟨[], .ok⟩ := by
  obtain ⟨h1, h2, h3, _, _⟩ :=
    c3DefaultWrittenOnce "todos" (.jStr "a") ⟨[], .ok⟩ rfl rfl
  exact ⟨h1, h2 3, h3 ⟨[], .ok⟩⟩

/-- C4 (evaluation at the failing input): when access to the `localStorage`
object itself throws (`noAccess`), `storage.get` of `src/src/storage.ts`
propagates the exception instead of returning the default — the bare
`localStorage.getItem` on line 39 sits outside every `try` — contradicting
the module's own header comment, and `storage.remove` throws likewise.  The
other two failure categories are handled there (a quota-only failure and a
corrupt raw string degrade without throwing), and the fully `try`-wrapped
`src/index.ts` storage degrades in all three categories. -/
theorem c4AccessThrowEval :
    storage3Get "k" (some (.jNum 0)) ⟨⟨[("k", .json (.jStr "x"))], .noAccess⟩, []⟩
      = .error () ∧
    storage3Remove "k" ⟨⟨[("k", .json (.jStr "x"))], .noAccess⟩, []⟩ = .error () ∧
    storage3Get "k" (some (.jNum 0)) ⟨⟨[("k", .corrupt "oops")], .ok⟩, []⟩
      = .ok (some (.jNum 0), ⟨⟨[("k", .corrupt "oops")], .ok⟩, []⟩, true) ∧
    storage3Get "k" (some (.jNum 0)) ⟨⟨[("k", .json (.jStr "x"))], .quotaFull⟩, []⟩
      = .ok (some (.jStr "x"),
          ⟨⟨[("k", .json (.jStr "x"))], .quotaFull⟩,
            [("k", ⟨true, some (.jStr "x"), some (.json (.jStr "x"))⟩)]⟩, true) ∧
    storage1Get "k" (some (.jNum 0)) ⟨⟨[("k", .json (.jStr "x"))], .noAccess⟩, []⟩
      = some (.jNum 0) ∧
    storage1Get "k" (some (.jNum 0)) ⟨⟨[("k", .corrupt "oops")], .ok⟩, []⟩
      = some (.jNum 0) := by
  refine ⟨rfl, rfl, rfl, rfl, by decide, by decide⟩

/-- C5: writing the value `undefined` with the default serializer stores the
literal string "undefined", and a fresh read with the same key yields the
value `undefined` — not the string "undefined" and not a parse error.  Holds
on the `src/index.ts` storage and on the `localStorageJson`/`getStorageValue`
path of `src/src`. -/
theorem c5UndefinedRoundTrip (k : String) (d : AppVal) (e1 : Env1)
    (ls : LocalStorage) (h1 : e1.ls.mode = .ok) (h2 : ls.mode = .ok) :
    freshHookValue1 k d (storage1Set k none e1).2 = none ∧
    localStorageJsonSetItem k none ls = .ok ⟨aset ls.items k .undef, .ok⟩ ∧
    alookup (aset ls.items k .undef) k = some .undef ∧
    getStorageValue k d ⟨aset ls.items k .undef, .ok⟩ = none ∧
    localStorageJsonGetItem k ⟨aset ls.items k .undef, .ok⟩ = .ok .undef ∧
    (none : AppVal) ≠ some (.jStr "undefined") := by
  obtain ⟨⟨items1, mode1⟩, data1⟩ := e1
  obtain ⟨items, mode⟩ := ls
  simp only at h1 h2
  subst h1
  subst h2
  refine ⟨?_, ?_, ?_, ?_, ?_, by decide⟩
  · simp [freshHookValue1, storage1Get, storage1Set, LocalStorage.setItem,
      LocalStorage.getItem, recRead, isNullish, parseJSONIndex, stringifyRaw]
  · simp [localStorageJsonSetItem, LocalStorage.setItem, stringifyRaw]
  · simp
  · simp [getStorageValue, localStorageJsonGetItem, LocalStorage.getItem,
      parseJSONNullV]
  · simp [localStorageJsonGetItem, LocalStorage.getItem, parseJSONNullV]

/-- C5 (witness): the round trip of `undefined` evaluated on an initially
empty working store. -/
theorem c5UndefinedRoundTripWitness :
    freshHookValue1 "k" (some (.jNum 7))
      (storage1Set "k" none ⟨⟨[], .ok⟩, []⟩).2 = none ∧
    getStorageValue "k" (some (.jNum 7)) ⟨aset [] "k" .undef, .ok⟩ = none := by
  obtain ⟨h1, _, _, h4, _, _⟩ :=
    c5UndefinedRoundTrip "k" (some (.jNum 7)) ⟨⟨[], .ok⟩, []⟩ ⟨[], .ok⟩ rfl rfl
  exact ⟨h1, h4⟩

/-- C6: a cross-context storage event whose storage area is the durable store
and whose key equals the hook's key, carrying `newValue = null` (the entry
was removed in the other context, so the shared durable store holds no entry
for the key), resets the observed value to the default; an event for a
different key or a different storage area leaves the observed value
unchanged.  Holds for the `onStorage` listener of
`src/src/useLocalStorageState.ts` (which re-reads the store) and for the one
of `src/index.ts` (which uses the event payload directly). -/
theorem c6CrossContextEvents (k : String) (d old : AppVal) (ls : LocalStorage)
    (st : HookState1) (e e' : StorageEvt)
    (habsent : alookup ls.items k = none)
    (hmatch : e.sameArea = true ∧ e.key = k ∧ e.newValue = none)
    (hmiss : ¬(e'.sameArea = true ∧ e'.key = k)) :
    onStorageClient k d ls old e = d ∧
    onStorageClient k d ls old e' = old ∧
    onStorageIndex k d st e = .ok ⟨d, true⟩ ∧
    onStorageIndex k d st e' = .ok st := by
  obtain ⟨harea, hkey, hnew⟩ := hmatch
  refine ⟨?_, ?_, ?_, ?_⟩
  · rw [onStorageClient, if_pos ⟨harea, hkey⟩]
    obtain ⟨items, mode⟩ := ls
    simp only at habsent
    cases mode with
    | ok =>
      simp [getStorageValue, localStorageJsonGetItem, LocalStorage.getItem,
        habsent, parseJSONNullV]
    | quotaFull =>
      simp [getStorageValue, localStorageJsonGetItem, LocalStorage.getItem,
        habsent, parseJSONNullV]
    | noAccess =>
      simp [getStorageValue, localStorageJsonGetItem, LocalStorage.getItem]
  · rw [onStorageClient, if_neg hmiss]
  · rw [onStorageIndex, if_pos ⟨harea, hkey⟩, hnew]
  · rw [onStorageIndex, if_neg hmiss]

/-- C6 (witness): a matching removal event resets to the default `["a"]`
stand-in value `"a"`, and an event for another key or for a different
storage area changes nothing. -/
theorem c6CrossContextEventsWitness :
    onStorageClient "todos" (some (.jStr "a")) ⟨[], .ok⟩ (some (.jStr "old"))
      ⟨true, "todos", none⟩ = some (.jStr "a") ∧
    onStorageClient "todos" (some (.jStr "a")) ⟨[], .ok⟩ (some (.jStr "old"))
      ⟨true, "other", some (.json .jNull)⟩ = some (.jStr "old") ∧
    onStorageIndex "todos" (some (.jStr "a")) ⟨some (.jStr "old"), true⟩
      ⟨true, "todos", none⟩ = .ok ⟨some (.jStr "a"), true⟩ ∧
    onStorageIndex "todos" (some (.jStr "a")) ⟨some (.jStr "old"), true⟩
      ⟨false, "todos", none⟩ = .ok ⟨some (.jStr "old"), true⟩ := by
  obtain ⟨h1, _, h3, _⟩ :=
    c6CrossContextEvents "todos" (some (.jStr "a")) (some (.jStr "old")) ⟨[], .ok⟩
      ⟨some (.jStr "old"), true⟩ ⟨true, "todos", none⟩
      ⟨true, "other", some (.json .jNull)⟩ rfl ⟨rfl, rfl, rfl⟩ (by decide)
  obtain ⟨_, h2, _, _⟩ :=
    c6CrossContextEvents "todos" (some (.jStr "a")) (some (.jStr "old")) ⟨[], .ok⟩
      ⟨some (.jStr "old"), true⟩ ⟨true, "todos", none⟩
      ⟨true, "other", some (.json .jNull)⟩ rfl ⟨rfl, rfl, rfl⟩ (by decide)
  obtain ⟨_, _, _, h4⟩ :=
    c6CrossContextEvents "todos" (some (.jStr "a")) (some (.jStr "old")) ⟨[], .ok⟩
      ⟨some (.jStr "old"), true⟩ ⟨true, "todos", none⟩
      ⟨false, "todos", none⟩ rfl ⟨rfl, rfl, rfl⟩ (by decide)
  exact ⟨h1, h2, h3, h4⟩

/-- C7: `removeItem` clears both the durable entry and the in-memory entry
for the key, and a fresh read afterwards returns the configured default
(which is `undefined` only when the default is).  Proven for
`storage.remove` of `src/src/storage.ts` followed by `storage.get`, and for
the `removeItem` of `src/src/useLocalStorageState.ts` followed by a fresh
`getStorageValue`. -/
theorem c7RemoveItemRestoresDefault (k : String) (d : AppVal) (e3 : Env3)
    (ls : LocalStorage) (h3 : e3.ls.mode = .ok) (hls : ls.mode = .ok) :
    (∃ e' : Env3, storage3Remove k e3 = .ok e' ∧
      alookup e'.data k = none ∧
      alookup e'.ls.items k = none ∧
      (storage3Get k d e').map (fun r => r.1) = .ok d) ∧
    (∃ ls' : LocalStorage, removeItemHook k d ls = .ok (ls', d) ∧
      alookup ls'.items k = none ∧
      getStorageValue k d ls' = d) := by
  obtain ⟨⟨items3, mode3⟩, data3⟩ := e3
  obtain ⟨items, mode⟩ := ls
  simp only at h3 hls
  subst h3
  subst hls
  constructor
  · refine ⟨⟨⟨aerase items3 k, .ok⟩, aerase data3 k⟩, ?_, ?_, ?_, ?_⟩
    · simp [storage3Remove, LocalStorage.removeItem, Except.map]
    · simp
    · simp
    · cases d with
      | none =>
        simp [storage3Get, LocalStorage.getItem, parseJSONIndex, Except.map,
          pure, Except.pure]
      | some w =>
        simp [storage3Get, LocalStorage.getItem, LocalStorage.setItem,
          parseJSONIndex, jsonParse, Except.map, pure, Except.pure]
  · refine ⟨⟨aerase items k, .ok⟩, ?_, ?_, ?_⟩
    · simp [removeItemHook, localStorageJsonRemoveItem, LocalStorage.removeItem,
        Except.map]
    · simp
    · simp [getStorageValue, localStorageJsonGetItem, LocalStorage.getItem,
        parseJSONNullV]

/-- C7 (witness): removing the key `"todos"` from a working store holding a
value for it, then reading freshly, returns the default for a defined
default and `undefined` for an undefined one. -/
theorem c7RemoveItemRestoresDefaultWitness :
    (∃ e' : Env3,
      storage3Remove "todos"
        ⟨⟨[("todos", .json (.jStr "x"))], .ok⟩,
          [("todos", ⟨true, some (.jStr "x"), some (.json (.jStr "x"))⟩)]⟩ = .ok e' ∧
      alookup e'.data "todos" = none ∧
      alookup e'.ls.items "todos" = none ∧
      (storage3Get "todos" (some (.jStr "a")) e').map (fun r => r.1)
        = .ok (some (.jStr "a"))) ∧
    (∃ ls' : LocalStorage,
      removeItemHook "todos" none ⟨[("todos", .json (.jStr "x"))], .ok⟩
        = .ok (ls', none) ∧
      alookup ls'.items "todos" = none ∧
      getStorageValue "todos" none ls' = none) := by
  exact ⟨(c7RemoveItemRestoresDefault "todos" (some (.jStr "a"))
      ⟨⟨[("todos", .json (.jStr "x"))], .ok⟩,
        [("todos", ⟨true, some (.jStr "x"), some (.json (.jStr "x"))⟩)]⟩
      ⟨[], .ok⟩ rfl rfl).1,
    (c7RemoveItemRestoresDefault "todos" none
      ⟨⟨[], .ok⟩, []⟩ ⟨[("todos", .json (.jStr "x"))], .ok⟩ rfl rfl).2⟩

/-- C8: a stored `null` and a stored `undefined` are distinguished from an
absent entry across a write/read round trip: after writing `null` a fresh
read returns `null` (not the default), after writing `undefined` it returns
`undefined`, while a read of a key with no entry returns the default.  Holds
on the `localStorageJson`/`getStorageValue` path of `src/src` (where the
`nullValue` sentinel carries a stored "null" past the absent-entry check) and
on the `src/unnamed/part_017` storage. -/
theorem c8NullVsAbsent (k : String) (d : AppVal) (ls : LocalStorage) (e1 : Env1)
    (hls : ls.mode = .ok) (habsent : alookup ls.items k = none)
    (h1 : e1.ls.mode = .ok) (h1absent : alookup e1.ls.items k = none)
    (h1data : recRead e1.data k = none) :
    localStorageJsonSetItem k (some .jNull) ls
      = .ok ⟨aset ls.items k (.json .jNull), .ok⟩ ∧
    getStorageValue k d ⟨aset ls.items k (.json .jNull), .ok⟩ = some .jNull ∧
    getStorageValue k d ⟨aset ls.items k .undef, .ok⟩ = none ∧
    getStorageValue k d ls = d ∧
    freshHookValue1 k d (storage1Set k (some .jNull) e1).2 = some .jNull ∧
    freshHookValue1 k d e1 = d := by
  obtain ⟨items, mode⟩ := ls
  obtain ⟨⟨items1, mode1⟩, data1⟩ := e1
  simp only at hls habsent h1 h1absent
  subst hls
  subst h1
  refine ⟨?_, ?_, ?_, ?_, ?_, ?_⟩
  · simp [localStorageJsonSetItem, LocalStorage.setItem, stringifyRaw]
  · simp [getStorageValue, localStorageJsonGetItem, LocalStorage.getItem,
      parseJSONNullV]
  · simp [getStorageValue, localStorageJsonGetItem, LocalStorage.getItem,
      parseJSONNullV]
  · simp [getStorageValue, localStorageJsonGetItem, LocalStorage.getItem,
      habsent, parseJSONNullV]
  · simp [freshHookValue1, storage1Get, storage1Set, LocalStorage.setItem,
      LocalStorage.getItem, recRead, isNullish, parseJSONIndex, jsonParse,
      stringifyRaw, Except.map]
  · have hd : recRead data1 k = none := h1data
    simp [freshHookValue1, storage1Get, hd, isNullish, LocalStorage.getItem,
      h1absent, parseJSONIndex]

/-- C8 (witness): on an empty working store, writing `null` reads back as
`null` while the untouched key reads as the default `0`. -/
theorem c8NullVsAbsentWitness :
    getStorageValue "k" (some (.jNum 0)) ⟨aset [] "k" (.json .jNull), .ok⟩
      = some .jNull ∧
    getStorageValue "k" (some (.jNum 0)) ⟨[], .ok⟩ = some (.jNum 0) ∧
    freshHookValue1 "k" (some (.jNum 0))
      (storage1Set "k" (some .jNull) ⟨⟨[], .ok⟩, []⟩).2 = some .jNull ∧
    freshHookValue1 "k" (some (.jNum 0)) ⟨⟨[], .ok⟩, []⟩ = some (.jNum 0) := by
  obtain ⟨_, h2, _, h4, h5, h6⟩ :=
    c8NullVsAbsent "k" (some (.jNum 0)) ⟨[], .ok⟩ ⟨⟨[], .ok⟩, []⟩ rfl rfl rfl rfl rfl
  exact ⟨h2, h4, h5, h6⟩

/-- Any sequence of factory-made mounts leaves the tracked-key set empty and
never throws: each factory mount adds its key and immediately deletes it
again. -/
theorem mountSeq_factory_ok (ms : List (String × MountKind))
    (hf : ∀ m ∈ ms, m.2 = MountKind.factory) : mountSeq ms [] = .ok [] := by
  induction ms with
  | nil => rfl
  | cons m rest ih =>
    obtain ⟨k, kind⟩ := m
    have hk : kind = .factory := hf (k, kind) (List.mem_cons_self _ _)
    subst hk
    have hrest : ∀ m ∈ rest, m.2 = MountKind.factory := fun m hm =>
      hf m (List.mem_cons_of_mem _ hm)
    have hstep : mountStep [] k .factory = .ok [] := by
      simp [mountStep, List.erase_cons_head]
    rw [mountSeq, hstep]
    simpa using ih hrest

/-- C9: mounting two independent `useLocalStorageState` instances with the
same key throws the duplicate-key error — whose message directs the caller to
`createLocalStorageStateHook` — at the second mount; two independent
instances with distinct keys mount fine; and any sequence of factory-made
instances, even all sharing one key, never triggers the error because the
factory's wrapper effect removes the key from the tracked set right after the
inner hook added it.  The storage operations of `src/index.ts` are total (see
`storage1Get`, `storage1Set`, `storage1Remove`), so on the modelled public
surface this duplicate-mount error is the only throw. -/
theorem c9DuplicateKeyDetection (k k2 : String) (ms : List (String × MountKind))
    (hf : ∀ m ∈ ms, m.2 = MountKind.factory) (hne : k2 ≠ k) :
    mountSeq [(k, .plain), (k, .plain)] [] = .error duplicateKeyMessage ∧
    mountSeq [(k, .plain), (k2, .plain)] [] = .ok [k2, k] ∧
    mountSeq ms [] = .ok [] := by
  refine ⟨?_, ?_, mountSeq_factory_ok ms hf⟩
  · simp [mountSeq, mountStep]
  · simp [mountSeq, mountStep, hne]

/-- C9 (witness): two plain mounts of `"a"` throw the duplicate-key error,
plain mounts of `"a"` then `"b"` succeed, and two factory mounts of `"a"`
succeed. -/
theorem c9DuplicateKeyDetectionWitness :
    mountSeq [("a", .plain), ("a", .plain)] [] = .error duplicateKeyMessage ∧
    mountSeq [("a", .plain), ("b", .plain)] [] = .ok ["b", "a"] ∧
    mountSeq [("a", .factory), ("a", .factory)] [] = .ok [] := by
  exact c9DuplicateKeyDetection "a" "b" [("a", .factory), ("a", .factory)]
    (by decide) (by decide)

/-- C10 (counterexample): the no-parse cache hit fails at `v = undefined`.
`set("k", undefined)` on a working store caches
`stringValue = JSON.stringify(undefined)` — the JS value `undefined` — while
`setItem` stores the coerced string "undefined"; the strict comparison
`undefined === "undefined"` on line 41 is false, so the very next `get`
reparses (third component `true`) and rewrites the cache entry, instead of
the state-preserving, parser-free hit the claim asserts for every `v`. -/
theorem c10CachedGetCounterexample :
    storage3Set "k" none ⟨⟨[], .ok⟩, []⟩
      = ⟨⟨[("k", .undef)], .ok⟩, [("k", ⟨true, none, none⟩)]⟩ ∧
    storage3Get "k" (some (.jNum 0)) ⟨⟨[("k", .undef)], .ok⟩, [("k", ⟨true, none, none⟩)]⟩
      = .ok (none, ⟨⟨[("k", .undef)], .ok⟩, [("k", ⟨true, none, some .undef⟩)]⟩, true) := by
  exact ⟨rfl, rfl⟩

/-- C10 (amended): after a `storage.set` of `src/src/storage.ts` whose
durable write succeeds, a `storage.get` for the same key returns exactly the
value that was passed to `set`, with the raw string in the durable store
unchanged.  For every defined value it is served from the cache entry written
by `set`, without running the parser (third component `false`) and without
changing the state.  For `v = undefined` the cached `stringValue` is the JS
value `undefined`, which never strictly equals the stored string
"undefined", so the first `get` takes the reparse branch (third component
`true`) and rewrites the cache entry — it still returns `undefined`, equal to
the written value — and every subsequent `get` is then a parser-free,
state-preserving cache hit. -/
theorem c10CachedGetAfterSetAmended (k : String) (w : JVal) (d : AppVal) (e : Env3)
    (hok : e.ls.mode = .ok) :
    (storage3Set k (some w) e
      = ⟨⟨aset e.ls.items k (.json w), .ok⟩,
          aset e.data k ⟨true, some w, some (.json w)⟩⟩ ∧
     storage3Get k d (storage3Set k (some w) e)
      = .ok (some w, storage3Set k (some w) e, false)) ∧
    (storage3Get k d (storage3Set k none e)
      = .ok (none,
          ⟨(storage3Set k none e).ls,
            aset (storage3Set k none e).data k ⟨true, none, some .undef⟩⟩, true) ∧
     storage3Get k d
        ⟨(storage3Set k none e).ls,
          aset (storage3Set k none e).data k ⟨true, none, some .undef⟩⟩
      = .ok (none,
          ⟨(storage3Set k none e).ls,
            aset (storage3Set k none e).data k ⟨true, none, some .undef⟩⟩, false)) := by
  obtain ⟨⟨items, mode⟩, data⟩ := e
  simp only at hok
  subst hok
  have hsetSome : storage3Set k (some w) ⟨⟨items, .ok⟩, data⟩
      = ⟨⟨aset items k (.json w), .ok⟩, aset data k ⟨true, some w, some (.json w)⟩⟩ := by
    simp [storage3Set, LocalStorage.setItem, stringifyRaw, jsonStringify]
  have hsetNone : storage3Set k none ⟨⟨items, .ok⟩, data⟩
      = ⟨⟨aset items k .undef, .ok⟩, aset data k ⟨true, none, none⟩⟩ := by
    simp [storage3Set, LocalStorage.setItem, stringifyRaw, jsonStringify]
  refine ⟨⟨hsetSome, ?_⟩, ?_, ?_⟩
  · rw [hsetSome]
    simp [storage3Get, LocalStorage.getItem, cachedEq, pure, Except.pure]
  · rw [hsetNone]
    simp [storage3Get, LocalStorage.getItem, cachedEq, parseJSONIndex,
      pure, Except.pure]
  · rw [hsetNone]
    simp [storage3Get, LocalStorage.getItem, cachedEq, pure, Except.pure]

/-- C10 (witness): on an empty working store, setting `"x"` and reading it
back is a parser-free cache hit returning `"x"`, while setting `undefined`
makes the first read reparse (still returning `undefined`) and the second
read a parser-free hit. -/
theorem c10CachedGetAfterSetAmendedWitness :
    storage3Get "k" none (storage3Set "k" (some (.jStr "x")) ⟨⟨[], .ok⟩, []⟩)
      = .ok (some (.jStr "x"),
          storage3Set "k" (some (.jStr "x")) ⟨⟨[], .ok⟩, []⟩, false) ∧
    storage3Get "k" none (storage3Set "k" none ⟨⟨[], .ok⟩, []⟩)
      = .ok (none,
          ⟨(storage3Set "k" none ⟨⟨[], .ok⟩, []⟩).ls,
            aset (storage3Set "k" none ⟨⟨[], .ok⟩, []⟩).data "k"
              ⟨true, none, some .undef⟩⟩, true) ∧
    storage3Get "k" none
        ⟨(storage3Set "k" none ⟨⟨[], .ok⟩, []⟩).ls,
          aset (storage3Set "k" none ⟨⟨[], .ok⟩, []⟩).data "k"
            ⟨true, none, some .undef⟩⟩
      = .ok (none,
          ⟨(storage3Set "k" none ⟨⟨[], .ok⟩, []⟩).ls,
            aset (storage3Set "k" none ⟨⟨[], .ok⟩, []⟩).data "k"
              ⟨true, none, some .undef⟩⟩, false) := by
  obtain ⟨⟨_, h1⟩, h2, h3⟩ :=
    c10CachedGetAfterSetAmended "k" (.jStr "x") none ⟨⟨[], .ok⟩, []⟩ rfl
  exact ⟨h1, h2, h3⟩

end ULSS
